import Mathlib

/-!
Verification of the storage-volume orchestration core of
terraform-provider-redfish, shallowly embedded from
`redfish/resource_redfish_storage_volume.go`.

The embedding models the gofish client calls (Systems, Storage, Drives,
Volumes, GetOperationApplyTimeValues, the HTTP Post/Patch/Delete of the
mutation submitters, the power-reset helper and the job poller) as oracle
inputs supplied by an environment record, and records the externally
visible calls each flow makes as a trace of events.  Request payload
bodies are not modelled: the spec scopes them out and no property here
depends on their contents.
-/

namespace RedfishVolume

/-- A storage volume as seen through gofish: only the fields the embedded
code reads (`Name`, `ODataID`). -/
structure Volume where
  name : String
  odataID : String
  deriving DecidableEq, Repr

/-- A physical drive as seen through gofish: only the fields the embedded
code reads (`Name`, `Entity.ODataID`). -/
structure Drive where
  name : String
  odataID : String
  deriving DecidableEq, Repr

/-- A storage controller.  `id`, `name` and `odataID` mirror the gofish
`Storage` fields the code reads; `applyTimes`, `drives` and `volumes` are
the oracle answers this controller object would return for
`GetOperationApplyTimeValues()`, `Drives()` and `Volumes()`. -/
structure Storage where
  id : String
  name : String
  odataID : String
  applyTimes : Except String (List String)
  drives : Except String (List Drive)
  volumes : Except String (List Volume)

/-- An HTTP response as the submitters see it: status code and the value
of the `Location` header (`""` when the header is absent, which is what
Go's `Header.Get` returns). -/
structure HttpResponse where
  statusCode : Nat
  location : String
  deriving DecidableEq, Repr

/-- HTTP method of a mutation request. -/
inductive Method where
  | post
  | patch
  | delete
  deriving DecidableEq, Repr

/-- Externally visible calls a mutation flow makes, in order. -/
inductive Event where
  /-- Models `redfishMutexKV.Lock(endpoint)`. -/
  | lock (endpoint : String)
  /-- Models `redfishMutexKV.Unlock(endpoint)` (run via `defer`). -/
  | unlock (endpoint : String)
  /-- Models `service.Systems()`. -/
  | sysQuery
  /-- Models `systems[0].Storage()`. -/
  | storQuery
  /-- Models `storage.GetOperationApplyTimeValues()` — the capability query. -/
  | capQuery
  /-- Models `storage.Drives()`. -/
  | drivesQuery
  /-- Models `storage.Volumes()`. -/
  | volumesQuery
  /-- the mutation request itself: POST / PATCH / DELETE to `url` -/
  | submit (m : Method) (url : String)
  /-- Models `PowerOperation(resetType, …)`. -/
  | powerOp (resetType : String)
  /-- Models `common.WaitForJobToFinish(service, jobID, …)`. -/
  | jobWait (jobID : String)
  /-- Models `redfish.GetVolume(client, id)` in the read flow. -/
  | volGet (id : String)
  deriving DecidableEq, Repr

/-- Is this event a mutation request (POST/PATCH/DELETE)? -/
def Event.isSubmit : Event → Bool
  | .submit _ _ => true
  | _ => false

/-- Embeds `getVolumeID`: scans the volume collection and returns the
`ODataID` of the first volume whose `Name` equals `volumeName`; errors
when none matches. -/
def getVolumeID (volumes : List Volume) (volumeName : String) :
    Except String String :=
  match volumes with
  | [] => .error "couldn't find a volume with the provided name"
  | v :: rest =>
    if v.name = volumeName then .ok v.odataID
    else getVolumeID rest volumeName

/-- Embeds `checkOperationApplyTimes`: membership test of the requested option in
the controller's advertised `OperationApplyTimeValues`. -/
def checkOperationApplyTimes (optionToCheck : String)
    (storageOperationApplyTimes : List String) : Bool :=
  match storageOperationApplyTimes with
  | [] => false
  | v :: rest =>
    if optionToCheck = v then true
    else checkOperationApplyTimes optionToCheck rest

/-- Embeds `getStorageController`: linear scan for the controller whose
`Entity.ID` equals `diskControllerID`. -/
def getStorageController (storageControllers : List Storage)
    (diskControllerID : String) : Except String Storage :=
  match storageControllers with
  | [] => .error "error. Didn't find the storage controller"
  | s :: rest =>
    if s.id = diskControllerID then .ok s
    else getStorageController rest diskControllerID

/-- Embeds `getDrives`: for each drive of the controller (outer loop, collection
order) and each requested name (inner loop), appends the drive once per
name match; errors exactly when the number of collected entries differs
from the number of requested names. -/
def getDrives (drives : List Drive) (driveNames : List String) :
    Except String (List Drive) :=
  let drivesToReturn :=
    drives.flatMap (fun v => (driveNames.filter (fun w => v.name = w)).map
      (fun _ => v))
  if driveNames.length ≠ drivesToReturn.length then
    .error "any of the drives you inserted doesn't exist"
  else .ok drivesToReturn

/-- The drive-name conversion loop shared by the create and update flows:
an empty `drives` list and a `nil` entry are both rejected before any
call to the service. -/
def convertDriveNames (raw : List (Option String)) :
    Except String (List String) :=
  if raw.length = 0 then
    .error "Error when getting the drives: drives cannot be empty"
  else
    match raw.mapM (fun x => x) with
    | none => .error "Error when getting the drives: drive name cannot be blank"
    | some names => .ok names

/-- Shared response handling of the three submitters (`createVolume`,
`updateVolume`, `deleteVolume`): a job ID is extracted only from a
202 Accepted response with a non-empty `Location` header. -/
def extractJobID (resp : HttpResponse) : Except String String :=
  if resp.statusCode ≠ 202 then
    .error "the query was unsucessfull"
  else if resp.location.length = 0 then
    .error "there was some error when retreiving the jobID"
  else .ok resp.location

/-- Embeds `createVolume` (submission part): one POST to
`storageLink + "/Volumes"`; `resp` is the transport's answer (a transport
error is returned as-is, mirroring `return "", err`). -/
def createVolume (storageLink : String)
    (resp : Except String HttpResponse) : Except String String × Event :=
  (match resp with
   | .error e => .error e
   | .ok r => extractJobID r,
   .submit .post (storageLink ++ "/Volumes"))

/-- Embeds `updateVolume` (submission part): one PATCH to
`storageLink + "/Settings"`. -/
def updateVolume (storageLink : String)
    (resp : Except String HttpResponse) : Except String String × Event :=
  (match resp with
   | .error e => .error e
   | .ok r => extractJobID r,
   .submit .patch (storageLink ++ "/Settings"))

/-- Embeds `deleteVolume`: one DELETE to `volumeURI`; a transport error is
wrapped in its own message, then the same 202/Location handling. -/
def deleteVolume (volumeURI : String)
    (resp : Except String HttpResponse) : Except String String × Event :=
  (match resp with
   | .error _ => .error "error while deleting the volume"
   | .ok r => extractJobID r,
   .submit .delete volumeURI)

/-- Outcome of `redfish.GetVolume` as `readRedfishStorageVolume` inspects
it: success, an API error carrying an HTTP status code
(`*redfishcommon.Error`), or a non-API error. -/
inductive ReadOutcome where
  | success
  | apiError (status : Nat)
  | otherError
  deriving DecidableEq, Repr

/-- Embeds `readRedfishStorageVolume`: on a 404 API error clears the resource ID
and reports success; any other API error or a non-API error is returned
as a diagnostic with the ID untouched.  Returns (diagnostics, new ID). -/
def readRedfishStorageVolume (outcome : ReadOutcome) (id : String) :
    Except String Unit × String :=
  match outcome with
  | .success => (.ok (), id)
  | .otherError => (.error "There was an error with the API", id)
  | .apiError s =>
    if s = 404 then (.ok (), "")
    else (.error "Status code", id)

/-- The resource configuration the flows read from the Terraform schema
(`d.Get(...)`), plus the endpoint identity used as the mutex key and the
current resource ID (`d.Id()`).  A `none` entry of `driveNames` models a
`nil` element of the raw `drives` list. -/
structure VolumeConfig where
  endpoint : String
  storageControllerID : String
  volumeType : String
  volumeName : String
  optimumIOSizeBytes : Nat
  capacityBytes : Nat
  driveNames : List (Option String)
  readCachePolicy : String
  writeCachePolicy : String
  diskCachePolicy : String
  applyTime : String
  resetType : String
  resetTimeout : Nat
  volumeJobTimeout : Nat
  id : String

/-- Result of a mutation flow: the diagnostics, the resource ID after the
flow (`d.SetId` effects included) and the ordered trace of external
calls. -/
structure FlowResult where
  result : Except String Unit
  finalId : String
  trace : List Event
  deriving Repr

/-- Go's `Lock(ep)` at entry with `defer Unlock(ep)`: the unlock runs on
every return path of the body, so the body's trace is bracketed. -/
def withLock (endpoint : String) (r : FlowResult) : FlowResult :=
  { r with trace := Event.lock endpoint :: r.trace ++ [Event.unlock endpoint] }

/-- Oracle answers the create flow consumes, in program order:
`service.Systems()`, `systems[0].Storage()`, the POST response, the
`PowerOperation` outcome (`true` = no diagnostics error), the
`WaitForJobToFinish` outcome, and the `GetVolume` outcome of the final
embedded read. -/
structure CreateEnv where
  systems : Except String Unit
  storage : Except String (List Storage)
  submitResp : Except String HttpResponse
  powerOk : Bool
  jobResult : Except String Unit
  readOutcome : ReadOutcome

/-- Tail of the create flow after a successful submission: the apply-time
switch (reboot when `OnReset`), the job wait, volume listing, volume-ID
resolution, `d.SetId` and the embedded read. -/
def createAfterSubmit (env : CreateEnv) (cfg : VolumeConfig) (st : Storage)
    (jobID : String) (tr : List Event) : FlowResult :=
  let step := fun (tr : List Event) =>
    let tr := tr ++ [Event.jobWait jobID]
    match env.jobResult with
    | .error _ => FlowResult.mk (.error "Error, job wasn't able to complete") cfg.id tr
    | .ok () =>
      let tr := tr ++ [Event.volumesQuery]
      match st.volumes with
      | .error _ => FlowResult.mk (.error "there was an issue when retrieving volumes") cfg.id tr
      | .ok vols =>
        match getVolumeID vols cfg.volumeName with
        | .error _ => FlowResult.mk
            (.error "Error. The volume ID with volume name was not found") cfg.id tr
        | .ok volumeID =>
          let tr := tr ++ [Event.volGet volumeID]
          let rd := readRedfishStorageVolume env.readOutcome volumeID
          FlowResult.mk rd.1 rd.2 tr
  if cfg.applyTime = "OnReset" then
    let tr := tr ++ [Event.powerOp cfg.resetType]
    if env.powerOk then step tr
    else FlowResult.mk (.error "there was an issue when restarting the server") cfg.id tr
  else step tr

/-- Body of `createRedfishStorageVolume` (everything between `Lock` and
the deferred `Unlock`). -/
def createBody (env : CreateEnv) (cfg : VolumeConfig) : FlowResult :=
  match convertDriveNames cfg.driveNames with
  | .error e => FlowResult.mk (.error e) cfg.id []
  | .ok driveNames =>
    match env.systems with
    | .error _ => FlowResult.mk
        (.error "Error when retreiving the Systems from the Redfish API") cfg.id [.sysQuery]
    | .ok () =>
      match env.storage with
      | .error _ => FlowResult.mk
          (.error "Error when retreiving the Storage from the Redfish API") cfg.id
          [.sysQuery, .storQuery]
      | .ok ctrls =>
        match getStorageController ctrls cfg.storageControllerID with
        | .error _ => FlowResult.mk
            (.error "Error when getting the storage struct") cfg.id [.sysQuery, .storQuery]
        | .ok st =>
          match st.applyTimes with
          | .error _ => FlowResult.mk
              (.error "couldn't retrieve operationApplyTimes from controller") cfg.id
              [.sysQuery, .storQuery, .capQuery]
          | .ok ts =>
            if checkOperationApplyTimes cfg.applyTime ts = false then
              FlowResult.mk
                (.error "Storage controller does not support settings_apply_time") cfg.id
                [.sysQuery, .storQuery, .capQuery]
            else
              match st.drives with
              | .error _ => FlowResult.mk
                  (.error "Error when getting the drives attached to controller") cfg.id
                  [.sysQuery, .storQuery, .capQuery, .drivesQuery]
              | .ok allDrives =>
                match getDrives allDrives driveNames with
                | .error _ => FlowResult.mk
                    (.error "Error when getting the drives") cfg.id
                    [.sysQuery, .storQuery, .capQuery, .drivesQuery]
                | .ok _drives =>
                  let sub := createVolume st.odataID env.submitResp
                  let tr := [Event.sysQuery, Event.storQuery, Event.capQuery,
                    Event.drivesQuery, sub.2]
                  match sub.1 with
                  | .error _ => FlowResult.mk
                      (.error "Error when creating the virtual disk on disk controller")
                      cfg.id tr
                  | .ok jobID => createAfterSubmit env cfg st jobID tr

/-- Embeds `createRedfishStorageVolume`: the body bracketed by the endpoint
mutex. -/
def createRedfishStorageVolume (env : CreateEnv) (cfg : VolumeConfig) :
    FlowResult :=
  withLock cfg.endpoint (createBody env cfg)

/-- Oracle answers the update flow consumes, in program order. -/
structure UpdateEnv where
  systems : Except String Unit
  storage : Except String (List Storage)
  submitResp : Except String HttpResponse
  powerOk : Bool
  jobResult : Except String Unit

/-- Body of `updateRedfishStorageVolume`: same shape as create but the
PATCH goes to `d.Id() + "/Settings"`, no drive fetch and no trailing
read/resolution. -/
def updateBody (env : UpdateEnv) (cfg : VolumeConfig) : FlowResult :=
  match convertDriveNames cfg.driveNames with
  | .error e => FlowResult.mk (.error e) cfg.id []
  | .ok _driveNames =>
    match env.systems with
    | .error _ => FlowResult.mk
        (.error "Error when retreiving the Systems from the Redfish API") cfg.id [.sysQuery]
    | .ok () =>
      match env.storage with
      | .error _ => FlowResult.mk
          (.error "Error when retreiving the Storage from the Redfish API") cfg.id
          [.sysQuery, .storQuery]
      | .ok ctrls =>
        match getStorageController ctrls cfg.storageControllerID with
        | .error _ => FlowResult.mk
            (.error "Error when getting the storage struct") cfg.id [.sysQuery, .storQuery]
        | .ok st =>
          match st.applyTimes with
          | .error _ => FlowResult.mk
              (.error "couldn't retrieve operationApplyTimes from controller") cfg.id
              [.sysQuery, .storQuery, .capQuery]
          | .ok ts =>
            if checkOperationApplyTimes cfg.applyTime ts = false then
              FlowResult.mk
                (.error "Storage controller does not support settings_apply_time") cfg.id
                [.sysQuery, .storQuery, .capQuery]
            else
              let sub := updateVolume cfg.id env.submitResp
              let tr := [Event.sysQuery, Event.storQuery, Event.capQuery, sub.2]
              match sub.1 with
              | .error _ => FlowResult.mk
                  (.error "Error when updating the virtual disk on disk controller")
                  cfg.id tr
              | .ok jobID =>
                let step := fun (tr : List Event) =>
                  let tr := tr ++ [Event.jobWait jobID]
                  match env.jobResult with
                  | .error _ => FlowResult.mk
                      (.error "Error, job wasn't able to complete") cfg.id tr
                  | .ok () => FlowResult.mk (.ok ()) cfg.id tr
                if cfg.applyTime = "OnReset" then
                  let tr := tr ++ [Event.powerOp cfg.resetType]
                  if env.powerOk then step tr
                  else FlowResult.mk
                      (.error "there was an issue when restarting the server") cfg.id tr
                else step tr

/-- Embeds `updateRedfishStorageVolume`: the body bracketed by the endpoint
mutex. -/
def updateRedfishStorageVolume (env : UpdateEnv) (cfg : VolumeConfig) :
    FlowResult :=
  withLock cfg.endpoint (updateBody env cfg)

/-- Oracle answers the delete flow consumes, in program order. -/
structure DeleteEnv where
  submitResp : Except String HttpResponse
  powerOk : Bool
  jobResult : Except String Unit

/-- Body of `deleteRedfishStorageVolume`: DELETE on `d.Id()` straight
away (no systems/storage/capability lookups), then the apply-time switch
and the job wait. -/
def deleteBody (env : DeleteEnv) (cfg : VolumeConfig) : FlowResult :=
  let sub := deleteVolume cfg.id env.submitResp
  let tr := [sub.2]
  match sub.1 with
  | .error _ => FlowResult.mk
      (.error "Error. There was an error when deleting volume") cfg.id tr
  | .ok jobID =>
    let step := fun (tr : List Event) =>
      let tr := tr ++ [Event.jobWait jobID]
      match env.jobResult with
      | .error _ => FlowResult.mk
          (.error "Error, timeout reached when waiting for job to finish") cfg.id tr
      | .ok () => FlowResult.mk (.ok ()) cfg.id tr
    if cfg.applyTime = "OnReset" then
      let tr := tr ++ [Event.powerOp cfg.resetType]
      if env.powerOk then step tr
      else FlowResult.mk
          (.error "there was an issue when restarting the server") cfg.id tr
    else step tr

/-- Embeds `deleteRedfishStorageVolume`: the body bracketed by the endpoint
mutex. -/
def deleteRedfishStorageVolume (env : DeleteEnv) (cfg : VolumeConfig) :
    FlowResult :=
  withLock cfg.endpoint (deleteBody env cfg)

/-- Status of the job resource at a given elapsed time, as reported by
polling it. -/
inductive JobStatus where
  | running
  | completed
  | failed (msg : String)
  deriving DecidableEq, Repr

/-- Terminal outcome of the job poller. -/
inductive JobOutcome where
  | completed
  | failed (msg : String)
  | timedOut
  deriving DecidableEq, Repr

/-- Modelled from the spec: `common.WaitForJobToFinish` lives in the
repository's `common` package, which is not under `src/`; spec §4.5
describes it as a loop that polls the job at a fixed interval, stops
immediately on a terminal status, and itself enforces the caller's
wall-clock timeout (Running→TimedOut once the elapsed time exceeds the
job timeout).  `job` maps elapsed seconds to the polled status; the fuel
argument only bounds the recursion and, by `waitForJobToFinish_elapsed_le`,
is never the binding constraint. -/
def waitAux (job : Nat → JobStatus) (interval timeout : Nat) :
    Nat → Nat → JobOutcome × Nat
  | 0, elapsed => (.timedOut, elapsed)
  | fuel + 1, elapsed =>
    match job elapsed with
    | .completed => (.completed, elapsed)
    | .failed m => (.failed m, elapsed)
    | .running =>
      if timeout < elapsed then (.timedOut, elapsed)
      else waitAux job interval timeout fuel (elapsed + interval)

/-- Modelled from the spec: entry point of the job poller (§4.5), polling
from elapsed time 0 at a fixed `interval` with the caller-supplied
`timeout`.  Returns the terminal outcome and the elapsed time at which
polling stopped. -/
def waitForJobToFinish (job : Nat → JobStatus) (interval timeout : Nat) :
    JobOutcome × Nat :=
  waitAux job interval timeout (timeout + 2) 0

/-! ## Theorems -/

/-- C1 (counterexample): a collection holding two volumes named `"v"` —
exactly two matches — on which `getVolumeID` does not fail: it returns
the first match's reference, so the claimed AmbiguousMatch failure on
duplicate names does not happen. -/
theorem getVolumeID_duplicate_counterexample :
    (([Volume.mk "v" "/id1", Volume.mk "v" "/id2"].filter
        (fun v => v.name = "v")).length = 2)
    ∧ getVolumeID [Volume.mk "v" "/id1", Volume.mk "v" "/id2"] "v" =
        .ok "/id1" := by
  exact ⟨by decide, rfl⟩

/-- C1 (amended): entity resolution returns the reference of the *first*
volume whose name matches, in collection order — in particular the match
when exactly one exists — and fails only when no volume matches; with
two or more matches it silently picks the first rather than failing. -/
theorem getVolumeID_first_match (volumes : List Volume) (volumeName : String) :
    getVolumeID volumes volumeName =
      match volumes.find? (fun v => v.name = volumeName) with
      | some v => .ok v.odataID
      | none => .error "couldn't find a volume with the provided name" := by
  induction volumes with
  | nil => rfl
  | cons v rest ih =>
    by_cases h : v.name = volumeName
    · simp [getVolumeID, h]
    · simp [getVolumeID, h, ih]

/-- Helper: a string has length zero exactly when it is empty. -/
theorem string_length_zero_iff (s : String) : s.length = 0 ↔ s = "" := by
  cases s with
  | mk cs =>
    simp [String.length]
    cases cs with
    | nil => simp
    | cons c cs =>
      simp
      intro h
      have := congrArg String.data h
      simp at this

/-- Helper: the shared 202/Location handling produces a job ID exactly
for a 202 response with non-empty `Location`, and the ID is the header
value. -/
theorem extractJobID_ok_iff (r : HttpResponse) (j : String) :
    extractJobID r = .ok j ↔ r = ⟨202, j⟩ ∧ j ≠ "" := by
  cases r with
  | mk s loc =>
    unfold extractJobID
    by_cases hs : s = 202
    · subst hs
      by_cases hl : loc.length = 0
      · have hloc : loc = "" := (string_length_zero_iff loc).mp hl
        subst hloc
        simp
        exact fun h => h.symm
      · simp [hl]
        intro h
        subst h
        exact fun hc => hl ((string_length_zero_iff loc).mpr hc)
    · simp [hs]

/-- C3: for each submitter (create POST, update PATCH, delete DELETE), a
job handle is produced iff the transport succeeded with status 202 and a
non-empty `Location` header, and the handle is exactly the `Location`
value; any other status, an empty `Location`, or a transport error
yields an error. -/
theorem submission_job_handle_iff (storageLink volumeURI : String)
    (resp : Except String HttpResponse) (j : String) :
    ((createVolume storageLink resp).1 = .ok j ↔
       resp = .ok ⟨202, j⟩ ∧ j ≠ "")
    ∧ ((updateVolume storageLink resp).1 = .ok j ↔
       resp = .ok ⟨202, j⟩ ∧ j ≠ "")
    ∧ ((deleteVolume volumeURI resp).1 = .ok j ↔
       resp = .ok ⟨202, j⟩ ∧ j ≠ "") := by
  refine ⟨?_, ?_, ?_⟩ <;>
    cases resp with
    | error e => simp [createVolume, updateVolume, deleteVolume]
    | ok r => simpa [createVolume, updateVolume, deleteVolume] using
        extractJobID_ok_iff r j

/-- C9: a 404 API error on read clears the resource ID and reports
success with no diagnostics; any other API status, and any non-API
error, is returned as a diagnostic with the resource ID left unchanged
(as is a successful read). -/
theorem read_notFound_clears_id (id : String) (s : Nat) :
    (readRedfishStorageVolume (.apiError 404) id = (.ok (), ""))
    ∧ (s ≠ 404 →
        readRedfishStorageVolume (.apiError s) id = (.error "Status code", id))
    ∧ (readRedfishStorageVolume .otherError id =
        (.error "There was an error with the API", id))
    ∧ (readRedfishStorageVolume .success id = (.ok (), id)) := by
  refine ⟨rfl, ?_, rfl, rfl⟩
  intro hs
  simp [readRedfishStorageVolume, hs]

/-- C9 (witness): concrete non-404 API error leaves the ID unchanged. -/
theorem read_notFound_clears_id_witness :
    readRedfishStorageVolume (.apiError 500) "/vol1" =
      (.error "Status code", "/vol1") :=
  (read_notFound_clears_id "/vol1" 500).2.1 (by decide)

/-- Helper invariant for the poller bound: if polling starts within the
bound it returns within the bound. -/
theorem waitAux_elapsed_le (job : Nat → JobStatus) (interval timeout : Nat) :
    ∀ (fuel elapsed : Nat), elapsed ≤ timeout + interval →
      (waitAux job interval timeout fuel elapsed).2 ≤ timeout + interval := by
  intro fuel
  induction fuel with
  | zero => intro elapsed h; simpa [waitAux] using h
  | succ n ih =>
    intro elapsed h
    unfold waitAux
    cases job elapsed with
    | completed => simpa using h
    | failed m => simpa using h
    | running =>
      by_cases ht : timeout < elapsed
      · simp [ht]; exact h
      · simp [ht]
        exact ih (elapsed + interval) (Nat.add_le_add_right (Nat.le_of_not_lt ht) interval)

/-- C7: the job poller terminates on every path within
`jobTimeout + pollInterval` of its start — the elapsed time at which it
stops (whether Completed, Failed or TimedOut) never exceeds the
caller-supplied timeout by more than one poll interval, the timeout
being checked by the poller itself on every iteration. -/
theorem waitForJobToFinish_bounded (job : Nat → JobStatus)
    (interval timeout : Nat) :
    (waitForJobToFinish job interval timeout).2 ≤ timeout + interval := by
  unfold waitForJobToFinish
  exact waitAux_elapsed_le job interval timeout (timeout + 2) 0 (Nat.zero_le _)

/-- A trace with no mutex operations in it. -/
def lockFree : List Event → Bool
  | [] => true
  | .lock _ :: _ => false
  | .unlock _ :: _ => false
  | _ :: tr => lockFree tr

/-- Number of mutation requests (POST/PATCH/DELETE) in a trace. -/
def countSubmits : List Event → Nat
  | [] => 0
  | e :: tr => (if e.isSubmit then 1 else 0) + countSubmits tr

theorem lockFree_append (a b : List Event) :
    lockFree (a ++ b) = (lockFree a && lockFree b) := by
  induction a with
  | nil => simp [lockFree]
  | cons e tr ih => cases e <;> simp [lockFree, ih]

theorem countSubmits_append (a b : List Event) :
    countSubmits (a ++ b) = countSubmits a + countSubmits b := by
  induction a with
  | nil => simp [countSubmits]
  | cons e tr ih => simp [countSubmits, ih]; omega

/-- The create body never touches the mutex (the lock and its deferred
unlock live in the wrapper alone). -/
theorem createBody_lockFree (env : CreateEnv) (cfg : VolumeConfig) :
    lockFree (createBody env cfg).trace = true := by
  unfold createBody createAfterSubmit
  repeat' split <;>
    try simp_all [lockFree, lockFree_append, createVolume, Event.isSubmit]

/-- The update body never touches the mutex. -/
theorem updateBody_lockFree (env : UpdateEnv) (cfg : VolumeConfig) :
    lockFree (updateBody env cfg).trace = true := by
  unfold updateBody
  repeat' split <;>
    try simp_all [lockFree, lockFree_append, updateVolume, Event.isSubmit]

/-- The delete body never touches the mutex. -/
theorem deleteBody_lockFree (env : DeleteEnv) (cfg : VolumeConfig) :
    lockFree (deleteBody env cfg).trace = true := by
  unfold deleteBody
  repeat' split <;>
    try simp_all [lockFree, lockFree_append, deleteVolume, Event.isSubmit]

/-- C4: every mutation flow (create, update, delete), on every outcome
(any environment, hence success and every error path), acquires the
endpoint mutex keyed by the endpoint identity as its very first action
and releases that same mutex as its very last action, with no other
mutex operation in between. -/
theorem flows_mutex_bracket (cEnv : CreateEnv) (uEnv : UpdateEnv)
    (dEnv : DeleteEnv) (cfg : VolumeConfig) :
    (∃ mid, (createRedfishStorageVolume cEnv cfg).trace =
        Event.lock cfg.endpoint :: mid ++ [Event.unlock cfg.endpoint]
      ∧ lockFree mid = true)
    ∧ (∃ mid, (updateRedfishStorageVolume uEnv cfg).trace =
        Event.lock cfg.endpoint :: mid ++ [Event.unlock cfg.endpoint]
      ∧ lockFree mid = true)
    ∧ (∃ mid, (deleteRedfishStorageVolume dEnv cfg).trace =
        Event.lock cfg.endpoint :: mid ++ [Event.unlock cfg.endpoint]
      ∧ lockFree mid = true) :=
  ⟨⟨(createBody cEnv cfg).trace, rfl, createBody_lockFree cEnv cfg⟩,
   ⟨(updateBody uEnv cfg).trace, rfl, updateBody_lockFree uEnv cfg⟩,
   ⟨(deleteBody dEnv cfg).trace, rfl, deleteBody_lockFree dEnv cfg⟩⟩

/-- C8: within one mutation attempt the submission request is issued at
most once, whatever the environment answers (response status, transport
error, later failures): the create and update flows issue zero or one
mutation request and never two, and the delete flow issues exactly one.
There is no internal retry. -/
theorem submission_at_most_once (cEnv : CreateEnv) (uEnv : UpdateEnv)
    (dEnv : DeleteEnv) (cfg : VolumeConfig) :
    countSubmits (createRedfishStorageVolume cEnv cfg).trace ≤ 1
    ∧ countSubmits (updateRedfishStorageVolume uEnv cfg).trace ≤ 1
    ∧ countSubmits (deleteRedfishStorageVolume dEnv cfg).trace = 1 := by
  refine ⟨?_, ?_, ?_⟩
  · show countSubmits (withLock _ _).trace ≤ 1
    unfold withLock createBody createAfterSubmit
    repeat' split <;>
      try simp_all [countSubmits, countSubmits_append, createVolume, Event.isSubmit]
  · show countSubmits (withLock _ _).trace ≤ 1
    unfold withLock updateBody
    repeat' split <;>
      try simp_all [countSubmits, countSubmits_append, updateVolume, Event.isSubmit]
  · show countSubmits (withLock _ _).trace = 1
    unfold withLock deleteBody
    repeat' split <;>
      try simp_all [countSubmits, countSubmits_append, deleteVolume, Event.isSubmit]

/-- C2 (counterexample): the delete flow performs no capability
validation at all.  With a controller advertising only `Immediate`
(so `OnReset` is not a member of the advertised set), an `OnReset`
delete still issues its DELETE request — the trace contains the
mutation request, contains no capability query, and the mutation is not
rejected. -/
theorem delete_no_capability_check_counterexample :
    checkOperationApplyTimes "OnReset" ["Immediate"] = false
    ∧ (deleteRedfishStorageVolume
        ⟨.ok ⟨202, "/job/1"⟩, true, .ok ()⟩
        { endpoint := "https://bmc1", storageControllerID := "RAID.Integrated.1-1",
          volumeType := "Mirrored", volumeName := "vol1",
          optimumIOSizeBytes := 0, capacityBytes := 0,
          driveNames := [some "d1"], readCachePolicy := "Off",
          writeCachePolicy := "WriteThrough", diskCachePolicy := "Enabled",
          applyTime := "OnReset", resetType := "ForceRestart",
          resetTimeout := 120, volumeJobTimeout := 1200,
          id := "/vol/1" }).trace =
        [.lock "https://bmc1", .submit .delete "/vol/1",
         .powerOp "ForceRestart", .jobWait "/job/1", .unlock "https://bmc1"]
    ∧ (deleteRedfishStorageVolume
        ⟨.ok ⟨202, "/job/1"⟩, true, .ok ()⟩
        { endpoint := "https://bmc1", storageControllerID := "RAID.Integrated.1-1",
          volumeType := "Mirrored", volumeName := "vol1",
          optimumIOSizeBytes := 0, capacityBytes := 0,
          driveNames := [some "d1"], readCachePolicy := "Off",
          writeCachePolicy := "WriteThrough", diskCachePolicy := "Enabled",
          applyTime := "OnReset", resetType := "ForceRestart",
          resetTimeout := 120, volumeJobTimeout := 1200,
          id := "/vol/1" }).result = .ok () := by
  refine ⟨rfl, ?_, rfl⟩
  rfl

/-- C2 (amended): for the create and update flows, an ApplyTimePolicy
outside the controller's advertised `OperationApplyTimeValues` set is
rejected after the capability query with no further external call — in
particular no mutation request (POST/PATCH) is ever issued; the delete
flow performs no such validation. -/
theorem capability_unsupported_rejects (cfg : VolumeConfig) :
    (∀ (env : CreateEnv) (ns : List String) (ctrls : List Storage)
        (st : Storage) (ts : List String),
      convertDriveNames cfg.driveNames = .ok ns →
      env.systems = .ok () →
      env.storage = .ok ctrls →
      getStorageController ctrls cfg.storageControllerID = .ok st →
      st.applyTimes = .ok ts →
      checkOperationApplyTimes cfg.applyTime ts = false →
      (createRedfishStorageVolume env cfg).trace =
          [.lock cfg.endpoint, .sysQuery, .storQuery, .capQuery,
           .unlock cfg.endpoint]
        ∧ (createRedfishStorageVolume env cfg).result =
            .error "Storage controller does not support settings_apply_time")
    ∧ (∀ (env : UpdateEnv) (ns : List String) (ctrls : List Storage)
        (st : Storage) (ts : List String),
      convertDriveNames cfg.driveNames = .ok ns →
      env.systems = .ok () →
      env.storage = .ok ctrls →
      getStorageController ctrls cfg.storageControllerID = .ok st →
      st.applyTimes = .ok ts →
      checkOperationApplyTimes cfg.applyTime ts = false →
      (updateRedfishStorageVolume env cfg).trace =
          [.lock cfg.endpoint, .sysQuery, .storQuery, .capQuery,
           .unlock cfg.endpoint]
        ∧ (updateRedfishStorageVolume env cfg).result =
            .error "Storage controller does not support settings_apply_time") := by
  constructor
  · intro env ns ctrls st ts h1 h2 h3 h4 h5 h6
    have : createBody env cfg = FlowResult.mk
        (.error "Storage controller does not support settings_apply_time")
        cfg.id [.sysQuery, .storQuery, .capQuery] := by
      simp [createBody, h1, h2, h3, h4, h5, h6]
    constructor
    · show (withLock _ (createBody env cfg)).trace = _
      rw [this]
      rfl
    · show (withLock _ (createBody env cfg)).result = _
      rw [this]
      rfl
  · intro env ns ctrls st ts h1 h2 h3 h4 h5 h6
    have : updateBody env cfg = FlowResult.mk
        (.error "Storage controller does not support settings_apply_time")
        cfg.id [.sysQuery, .storQuery, .capQuery] := by
      simp [updateBody, h1, h2, h3, h4, h5, h6]
    constructor
    · show (withLock _ (updateBody env cfg)).trace = _
      rw [this]
      rfl
    · show (withLock _ (updateBody env cfg)).result = _
      rw [this]
      rfl

/-- Concrete storage controller for the C2 witness: advertises only
`Immediate`. -/
def c2St : Storage :=
  ⟨"RAID.Integrated.1-1", "ctrl", "/stor/1", .ok ["Immediate"],
   .ok [⟨"d1", "/drv/1"⟩], .ok []⟩

/-- Concrete create environment for the C2 witness. -/
def c2Env : CreateEnv :=
  ⟨.ok (), .ok [c2St], .ok ⟨202, "/job/1"⟩, true, .ok (), .success⟩

/-- Concrete configuration for the C2 witness: requests `OnReset`. -/
def c2Cfg : VolumeConfig :=
  { endpoint := "https://bmc1", storageControllerID := "RAID.Integrated.1-1",
    volumeType := "Mirrored", volumeName := "vol1",
    optimumIOSizeBytes := 0, capacityBytes := 0,
    driveNames := [some "d1"], readCachePolicy := "Off",
    writeCachePolicy := "WriteThrough", diskCachePolicy := "Enabled",
    applyTime := "OnReset", resetType := "ForceRestart",
    resetTimeout := 120, volumeJobTimeout := 1200,
    id := "" }

/-- C2 (witness): on that concrete environment an `OnReset` create stops
at the capability query with no mutation request. -/
theorem capability_unsupported_rejects_witness :
    (createRedfishStorageVolume c2Env c2Cfg).trace =
      [.lock "https://bmc1", .sysQuery, .storQuery, .capQuery,
       .unlock "https://bmc1"] :=
  ((capability_unsupported_rejects c2Cfg).1 c2Env ["d1"] [c2St] c2St
    ["Immediate"] rfl rfl rfl rfl rfl rfl).1

/-- Number of power operations (reboot requests) in a trace. -/
def countPowerOps : List Event → Nat
  | [] => 0
  | .powerOp _ :: tr => 1 + countPowerOps tr
  | _ :: tr => countPowerOps tr

theorem countPowerOps_append (a b : List Event) :
    countPowerOps (a ++ b) = countPowerOps a + countPowerOps b := by
  induction a with
  | nil => simp [countPowerOps]
  | cons e tr ih => cases e <;> simp [countPowerOps, ih] <;> try omega

/-- Concrete storage controller for the C5 counterexample: advertises
only `Immediate`. -/
def c5St : Storage :=
  ⟨"RAID.Integrated.1-1", "ctrl", "/stor/1", .ok ["Immediate"],
   .ok [⟨"d1", "/drv/1"⟩], .ok []⟩

/-- Concrete create environment for the C5 counterexample. -/
def c5Env : CreateEnv :=
  ⟨.ok (), .ok [c5St], .ok ⟨202, "/job/1"⟩, true, .ok (), .success⟩

/-- Concrete configuration for the C5 counterexample: requests
`OnReset`. -/
def c5Cfg : VolumeConfig :=
  { endpoint := "https://bmc1", storageControllerID := "RAID.Integrated.1-1",
    volumeType := "Mirrored", volumeName := "vol1",
    optimumIOSizeBytes := 0, capacityBytes := 0,
    driveNames := [some "d1"], readCachePolicy := "Off",
    writeCachePolicy := "WriteThrough", diskCachePolicy := "Enabled",
    applyTime := "OnReset", resetType := "ForceRestart",
    resetTimeout := 120, volumeJobTimeout := 1200,
    id := "" }

/-- C5 (counterexample): a create run whose requested ApplyTimePolicy is
`OnReset` yet in which no power operation is ever requested (the run is
rejected at the capability gate before the apply-time switch), refuting
the claimed "if and only if". -/
theorem powerOperation_iff_counterexample :
    c5Cfg.applyTime = "OnReset"
    ∧ countPowerOps (createRedfishStorageVolume c5Env c5Cfg).trace = 0 := by
  exact ⟨rfl, rfl⟩

/-- C5 (amended): a power operation is requested only in `OnReset` runs
(an `Immediate` run never requests one, in any of the three flows), and
an `OnReset` run requests exactly one power operation provided the flow
reaches its submission step and the submission succeeds. -/
theorem powerOperation_only_onReset (cEnv : CreateEnv) (uEnv : UpdateEnv)
    (dEnv : DeleteEnv) (cfg : VolumeConfig) :
    (cfg.applyTime ≠ "OnReset" →
      countPowerOps (createRedfishStorageVolume cEnv cfg).trace = 0
      ∧ countPowerOps (updateRedfishStorageVolume uEnv cfg).trace = 0
      ∧ countPowerOps (deleteRedfishStorageVolume dEnv cfg).trace = 0)
    ∧ (cfg.applyTime = "OnReset" →
      (∀ (ns : List String) (ctrls : List Storage) (st : Storage)
          (ts : List String) (allDrives ds : List Drive) (j : String),
        convertDriveNames cfg.driveNames = .ok ns →
        cEnv.systems = .ok () →
        cEnv.storage = .ok ctrls →
        getStorageController ctrls cfg.storageControllerID = .ok st →
        st.applyTimes = .ok ts →
        checkOperationApplyTimes cfg.applyTime ts = true →
        st.drives = .ok allDrives →
        getDrives allDrives ns = .ok ds →
        (createVolume st.odataID cEnv.submitResp).1 = .ok j →
        countPowerOps (createRedfishStorageVolume cEnv cfg).trace = 1)
      ∧ (∀ (ns : List String) (ctrls : List Storage) (st : Storage)
          (ts : List String) (j : String),
        convertDriveNames cfg.driveNames = .ok ns →
        uEnv.systems = .ok () →
        uEnv.storage = .ok ctrls →
        getStorageController ctrls cfg.storageControllerID = .ok st →
        st.applyTimes = .ok ts →
        checkOperationApplyTimes cfg.applyTime ts = true →
        (updateVolume cfg.id uEnv.submitResp).1 = .ok j →
        countPowerOps (updateRedfishStorageVolume uEnv cfg).trace = 1)
      ∧ (∀ (j : String),
        (deleteVolume cfg.id dEnv.submitResp).1 = .ok j →
        countPowerOps (deleteRedfishStorageVolume dEnv cfg).trace = 1)) := by
  constructor
  · intro h
    refine ⟨?_, ?_, ?_⟩
    · show countPowerOps (withLock _ (createBody cEnv cfg)).trace = 0
      unfold withLock createBody createAfterSubmit
      repeat' split <;>
        try simp_all [countPowerOps, countPowerOps_append, createVolume]
    · show countPowerOps (withLock _ (updateBody uEnv cfg)).trace = 0
      unfold withLock updateBody
      repeat' split <;>
        try simp_all [countPowerOps, countPowerOps_append, updateVolume]
    · show countPowerOps (withLock _ (deleteBody dEnv cfg)).trace = 0
      unfold withLock deleteBody
      repeat' split <;>
        try simp_all [countPowerOps, countPowerOps_append, deleteVolume]
  · intro h
    refine ⟨?_, ?_, ?_⟩
    · intro ns ctrls st ts allDrives ds j h1 h2 h3 h4 h5 h6 h7 h8 h9
      show countPowerOps (withLock _ (createBody cEnv cfg)).trace = 1
      unfold withLock createBody createAfterSubmit
      simp only [h1, h2, h3, h4, h5, h6, h7, h8, h9, h]
      repeat' split <;>
        try simp_all [countPowerOps, countPowerOps_append, createVolume]
    · intro ns ctrls st ts j h1 h2 h3 h4 h5 h6 h7
      show countPowerOps (withLock _ (updateBody uEnv cfg)).trace = 1
      unfold withLock updateBody
      simp only [h1, h2, h3, h4, h5, h6, h7, h]
      repeat' split <;>
        try simp_all [countPowerOps, countPowerOps_append, updateVolume]
    · intro j h1
      show countPowerOps (withLock _ (deleteBody dEnv cfg)).trace = 1
      unfold withLock deleteBody
      simp only [h1, h]
      repeat' split <;>
        try simp_all [countPowerOps, countPowerOps_append, deleteVolume]

/-- C6: in any `OnReset` mutation (create, update or delete) whose
submission succeeded and whose power-reset step then fails or times out,
the flow aborts with the reset error before any job polling (no
`jobWait` in the trace), and nothing further is sent to the controller —
the trace ends with the failed power operation and the mutex release, so
the already-submitted job is left outstanding with no cancellation or
cleanup request. -/
theorem reset_failure_aborts_before_polling (cEnv : CreateEnv)
    (uEnv : UpdateEnv) (dEnv : DeleteEnv) (cfg : VolumeConfig)
    (hreset : cfg.applyTime = "OnReset") :
    (∀ (ns : List String) (ctrls : List Storage) (st : Storage)
        (ts : List String) (allDrives ds : List Drive) (j : String),
      convertDriveNames cfg.driveNames = .ok ns →
      cEnv.systems = .ok () →
      cEnv.storage = .ok ctrls →
      getStorageController ctrls cfg.storageControllerID = .ok st →
      st.applyTimes = .ok ts →
      checkOperationApplyTimes cfg.applyTime ts = true →
      st.drives = .ok allDrives →
      getDrives allDrives ns = .ok ds →
      (createVolume st.odataID cEnv.submitResp).1 = .ok j →
      cEnv.powerOk = false →
      (createRedfishStorageVolume cEnv cfg).result =
          .error "there was an issue when restarting the server"
        ∧ (createRedfishStorageVolume cEnv cfg).trace =
            [.lock cfg.endpoint, .sysQuery, .storQuery, .capQuery,
             .drivesQuery, .submit .post (st.odataID ++ "/Volumes"),
             .powerOp cfg.resetType, .unlock cfg.endpoint])
    ∧ (∀ (ns : List String) (ctrls : List Storage) (st : Storage)
        (ts : List String) (j : String),
      convertDriveNames cfg.driveNames = .ok ns →
      uEnv.systems = .ok () →
      uEnv.storage = .ok ctrls →
      getStorageController ctrls cfg.storageControllerID = .ok st →
      st.applyTimes = .ok ts →
      checkOperationApplyTimes cfg.applyTime ts = true →
      (updateVolume cfg.id uEnv.submitResp).1 = .ok j →
      uEnv.powerOk = false →
      (updateRedfishStorageVolume uEnv cfg).result =
          .error "there was an issue when restarting the server"
        ∧ (updateRedfishStorageVolume uEnv cfg).trace =
            [.lock cfg.endpoint, .sysQuery, .storQuery, .capQuery,
             .submit .patch (cfg.id ++ "/Settings"),
             .powerOp cfg.resetType, .unlock cfg.endpoint])
    ∧ (∀ (j : String),
      (deleteVolume cfg.id dEnv.submitResp).1 = .ok j →
      dEnv.powerOk = false →
      (deleteRedfishStorageVolume dEnv cfg).result =
          .error "there was an issue when restarting the server"
        ∧ (deleteRedfishStorageVolume dEnv cfg).trace =
            [.lock cfg.endpoint, .submit .delete cfg.id,
             .powerOp cfg.resetType, .unlock cfg.endpoint]) := by
  refine ⟨?_, ?_, ?_⟩
  · intro ns ctrls st ts allDrives ds j h1 h2 h3 h4 h5 h6 h7 h8 h9 h10
    have hb : createBody cEnv cfg = FlowResult.mk
        (.error "there was an issue when restarting the server") cfg.id
        [.sysQuery, .storQuery, .capQuery, .drivesQuery,
         .submit .post (st.odataID ++ "/Volumes"), .powerOp cfg.resetType] := by
      have h6' : checkOperationApplyTimes "OnReset" ts = true := hreset ▸ h6
      unfold createBody createAfterSubmit
      rcases hcv : cEnv.submitResp with e | r
      · simp [createVolume, hcv] at h9
      · simp [createVolume, hcv] at h9
        simp [h1, h2, h3, h4, h5, h6', h7, h8, h9, h10, hcv, hreset,
          createVolume]
    constructor
    · show (withLock _ (createBody cEnv cfg)).result = _
      rw [hb]
      rfl
    · show (withLock _ (createBody cEnv cfg)).trace = _
      rw [hb]
      rfl
  · intro ns ctrls st ts j h1 h2 h3 h4 h5 h6 h7 h8
    have hb : updateBody uEnv cfg = FlowResult.mk
        (.error "there was an issue when restarting the server") cfg.id
        [.sysQuery, .storQuery, .capQuery,
         .submit .patch (cfg.id ++ "/Settings"), .powerOp cfg.resetType] := by
      have h6' : checkOperationApplyTimes "OnReset" ts = true := hreset ▸ h6
      unfold updateBody
      rcases hcv : uEnv.submitResp with e | r
      · simp [updateVolume, hcv] at h7
      · simp [updateVolume, hcv] at h7
        simp [h1, h2, h3, h4, h5, h6', h7, h8, hcv, hreset, updateVolume]
    constructor
    · show (withLock _ (updateBody uEnv cfg)).result = _
      rw [hb]
      rfl
    · show (withLock _ (updateBody uEnv cfg)).trace = _
      rw [hb]
      rfl
  · intro j h1 h2
    have hb : deleteBody dEnv cfg = FlowResult.mk
        (.error "there was an issue when restarting the server") cfg.id
        [.submit .delete cfg.id, .powerOp cfg.resetType] := by
      unfold deleteBody
      rcases hcv : dEnv.submitResp with e | r
      · simp [deleteVolume, hcv] at h1
      · simp [deleteVolume, hcv] at h1
        simp [h1, h2, hcv, hreset, deleteVolume]
    constructor
    · show (withLock _ (deleteBody dEnv cfg)).result = _
      rw [hb]
      rfl
    · show (withLock _ (deleteBody dEnv cfg)).trace = _
      rw [hb]
      rfl

/-- Concrete storage controller advertising `OnReset`, for the C5 and C6
witnesses. -/
def wSt : Storage :=
  ⟨"RAID.Integrated.1-1", "ctrl", "/stor/1", .ok ["Immediate", "OnReset"],
   .ok [⟨"d1", "/drv/1"⟩], .ok []⟩

/-- Concrete `OnReset` configuration for the C5 and C6 witnesses. -/
def wCfg : VolumeConfig :=
  { endpoint := "https://bmc1", storageControllerID := "RAID.Integrated.1-1",
    volumeType := "Mirrored", volumeName := "vol1",
    optimumIOSizeBytes := 0, capacityBytes := 0,
    driveNames := [some "d1"], readCachePolicy := "Off",
    writeCachePolicy := "WriteThrough", diskCachePolicy := "Enabled",
    applyTime := "OnReset", resetType := "ForceRestart",
    resetTimeout := 120, volumeJobTimeout := 1200,
    id := "/vol/1" }

/-- Create environment where everything up to and including the power
operation succeeds (C5 witness). -/
def c5wEnv : CreateEnv :=
  ⟨.ok (), .ok [wSt], .ok ⟨202, "/job/7"⟩, true, .ok (), .success⟩

/-- C5 (witness): that concrete successful `OnReset` create requests
exactly one power operation. -/
theorem powerOperation_only_onReset_witness :
    countPowerOps (createRedfishStorageVolume c5wEnv wCfg).trace = 1 :=
  ((powerOperation_only_onReset c5wEnv
      ⟨.ok (), .ok [], .ok ⟨202, "/j"⟩, true, .ok ()⟩
      ⟨.ok ⟨202, "/j"⟩, true, .ok ()⟩ wCfg).2 rfl).1
    ["d1"] [wSt] wSt ["Immediate", "OnReset"] [⟨"d1", "/drv/1"⟩]
    [⟨"d1", "/drv/1"⟩] "/job/7" rfl rfl rfl rfl rfl rfl rfl rfl rfl

/-- Create environment where the submission succeeds and the power-reset
step then fails (C6 witness). -/
def c6wEnv : CreateEnv :=
  ⟨.ok (), .ok [wSt], .ok ⟨202, "/job/7"⟩, false, .ok (), .success⟩

/-- C6 (witness): that concrete `OnReset` create whose reset fails aborts
with the reset error. -/
theorem reset_failure_aborts_before_polling_witness :
    (createRedfishStorageVolume c6wEnv wCfg).result =
      .error "there was an issue when restarting the server" :=
  ((reset_failure_aborts_before_polling c6wEnv
      ⟨.ok (), .ok [], .ok ⟨202, "/j"⟩, true, .ok ()⟩
      ⟨.ok ⟨202, "/j"⟩, true, .ok ()⟩ wCfg rfl).1
    ["d1"] [wSt] wSt ["Immediate", "OnReset"] [⟨"d1", "/drv/1"⟩]
    [⟨"d1", "/drv/1"⟩] "/job/7" rfl rfl rfl rfl rfl rfl rfl rfl rfl rfl).1

/-- Helper: under a duplicate-free name list, filtering for one name
yields that name once if present, else nothing. -/
theorem filter_eq_single (names : List String) (a : String) (hn : names.Nodup) :
    names.filter (fun w => a = w) = if a ∈ names then [a] else [] := by
  induction names with
  | nil => simp
  | cons b rest ih =>
    rcases List.nodup_cons.mp hn with ⟨hb, hrest⟩
    by_cases hab : a = b
    · subst hab
      have hrest0 : List.filter (fun w => decide (a = w)) rest = [] :=
        List.filter_eq_nil_iff.mpr (fun w hw h => by
          have := of_decide_eq_true h
          subst this
          exact hb hw)
      simp [List.filter_cons, hrest0]
    · simp [List.filter_cons, hab, ih hrest]

/-- Helper: with duplicate-free requested names, the nested-loop
collection of `getDrives` degenerates to filtering the drive collection
by requested membership. -/
theorem matched_eq_filter (drives : List Drive) (names : List String)
    (hn : names.Nodup) :
    drives.flatMap (fun v => (names.filter (fun w => v.name = w)).map
        (fun _ => v))
      = drives.filter (fun v => decide (v.name ∈ names)) := by
  induction drives with
  | nil => simp
  | cons d rest ih =>
    simp only [List.flatMap_cons, List.filter_cons, ih]
    rw [filter_eq_single names d.name hn]
    by_cases h : d.name ∈ names <;> simp [h]

/-- Helper: filtering drives on a predicate of their names has the same
length as filtering the name list. -/
theorem length_filter_comp (l : List Drive) (p : String → Bool) :
    (l.filter (fun v => p v.name)).length
      = ((l.map Drive.name).filter p).length := by
  induction l with
  | nil => rfl
  | cons d rest ih => by_cases h : p d.name <;> simp [List.filter_cons, h, ih]

/-- Helper: for duplicate-free lists the two one-sided intersections have
equal size. -/
theorem length_inter_comm (A B : List String) (hA : A.Nodup) (hB : B.Nodup) :
    (A.filter (fun a => decide (a ∈ B))).length
      = (B.filter (fun b => decide (b ∈ A))).length := by
  have h1 : (A.filter (fun a => decide (a ∈ B))).length
      = (A.toFinset ∩ B.toFinset).card := by
    rw [← List.toFinset_card_of_nodup (hA.filter _)]
    congr 1
    rw [List.toFinset_filter]
    ext a
    simp
  have h2 : (B.filter (fun b => decide (b ∈ A))).length
      = (B.toFinset ∩ A.toFinset).card := by
    rw [← List.toFinset_card_of_nodup (hB.filter _)]
    congr 1
    rw [List.toFinset_filter]
    ext a
    simp
  rw [h1, h2, Finset.inter_comm]

/-- Helper: a filter keeps the whole list exactly when every element
satisfies the predicate. -/
theorem filter_length_full (B : List String) (p : String → Bool) :
    (B.filter p).length = B.length ↔ ∀ b ∈ B, p b := by
  constructor
  · intro h
    exact List.filter_eq_self.mp ((List.filter_sublist B).eq_of_length h)
  · intro h
    rw [List.filter_eq_self.mpr h]

/-- All (drive, requested-name) pairs in drive-collection-major order
whose names agree — the pairs the claim speaks about. -/
def matchingPairs (drives : List Drive) (names : List String) :
    List (Drive × String) :=
  (drives.flatMap (fun d => names.map (fun w => (d, w)))).filter
    (fun p => decide (p.1.name = p.2))

/-- Helper: pairing one drive with each matching requested name. -/
theorem inner_pairs (d : Drive) (names : List String) :
    (names.map (fun w => (d, w))).filter (fun p => decide (p.1.name = p.2))
      = (names.filter (fun w => d.name = w)).map (fun w => (d, w)) := by
  induction names with
  | nil => rfl
  | cons w rest ih =>
    by_cases h : d.name = w <;> simp [List.filter_cons, h, ih]

/-- Helper: the drives of the matching pairs are exactly the list the
`getDrives` loops build. -/
theorem matchingPairs_fst (drives : List Drive) (names : List String) :
    (matchingPairs drives names).map Prod.fst
      = drives.flatMap (fun v => (names.filter (fun w => v.name = w)).map
          (fun _ => v)) := by
  unfold matchingPairs
  induction drives with
  | nil => rfl
  | cons d rest ih =>
    simp only [List.flatMap_cons, List.filter_append, List.map_append, ih,
      inner_pairs, List.map_map]
    rfl

/-- C10: `getDrives` returns one drive entry per (drive, requested-name)
pair with equal names, in drive-collection order, and fails exactly when
the number of matching pairs differs from the number of requested names;
with pairwise-distinct drive names and pairwise-distinct requested
names it succeeds iff every requested name names some drive, and then
returns exactly the drives whose names were requested (in collection
order). -/
theorem getDrives_spec (drives : List Drive) (names : List String) :
    (getDrives drives names =
      if names.length = (matchingPairs drives names).length
      then .ok ((matchingPairs drives names).map Prod.fst)
      else .error "any of the drives you inserted doesn't exist")
    ∧ ((drives.map Drive.name).Nodup → names.Nodup →
        (((∃ l, getDrives drives names = .ok l) ↔
            ∀ w ∈ names, w ∈ drives.map Drive.name)
          ∧ ((∀ w ∈ names, w ∈ drives.map Drive.name) →
              getDrives drives names =
                .ok (drives.filter (fun v => decide (v.name ∈ names)))))) := by
  constructor
  · have hfst := matchingPairs_fst drives names
    unfold getDrives
    simp only [← hfst, List.length_map]
    by_cases h : names.length = (matchingPairs drives names).length <;> simp [h]
  · intro hd hn
    have hr := matched_eq_filter drives names hn
    have hiff : (names.length
          = (drives.filter (fun v => decide (v.name ∈ names))).length)
        ↔ ∀ w ∈ names, w ∈ drives.map Drive.name := by
      rw [length_filter_comp drives (fun a => decide (a ∈ names)),
          length_inter_comm (drives.map Drive.name) names hd hn,
          eq_comm, filter_length_full]
      simp
    constructor
    · constructor
      · rintro ⟨l, hl⟩
        unfold getDrives at hl
        simp only [hr] at hl
        by_cases hc : names.length
            = (drives.filter (fun v => decide (v.name ∈ names))).length
        · exact hiff.mp hc
        · simp [hc] at hl
      · intro h
        refine ⟨drives.filter (fun v => decide (v.name ∈ names)), ?_⟩
        unfold getDrives
        simp only [hr]
        simp [hiff.mpr h]
    · intro h
      unfold getDrives
      simp only [hr]
      simp [hiff.mpr h]

/-- C10 (witness): two distinctly-named drives, both requested (in the
other order); `getDrives` returns them in collection order. -/
theorem getDrives_spec_witness :
    getDrives [⟨"d1", "/1"⟩, ⟨"d2", "/2"⟩] ["d2", "d1"] =
      .ok [⟨"d1", "/1"⟩, ⟨"d2", "/2"⟩] :=
  ((getDrives_spec [⟨"d1", "/1"⟩, ⟨"d2", "/2"⟩] ["d2", "d1"]).2
    (by decide) (by decide)).2 (by decide)

end RedfishVolume
